/-
Verification of the tenant-isolation and query-scoping layer of the
simsy-reporting-api worker, as a shallow embedding in Lean 4.

Sources embedded:
  - src/src/db.ts        : tenantFilter, withTenantContext
  - src/src/index.ts     : authenticateTenant, authenticateJWT
  - src/src/types.ts     : TenantInfo
  - src/utils/jwt.ts     : JWTPayload (verifyJWT is modelled abstractly)

TypeScript string-literal unions are erased at runtime, and the values that
populate them arrive through unchecked JSON casts (KV records, JWT payloads),
so role and auth_method are embedded as String, matching runtime reality.
Header values are Option String (null when absent); JavaScript truthiness
checks on strings (false for undefined/null and for the empty string) are
embedded via tsTruthy.
-/
import Mathlib

set_option maxHeartbeats 1000000

/-- The TenantInfo record of src/src/types.ts: resolved identity for one
request.  role is the string union admin | tenant | customer at the type
level, a plain string at runtime. -/
structure TenantInfo where
  tenant_id : String
  tenant_name : String
  role : String
  customer_id : Option String := none
  customer_name : Option String := none
  user_id : Option String := none
  user_email : Option String := none
  auth_method : String := "service_token"
deriving Repr, DecidableEq

/-- Return type of tenantFilter in src/src/db.ts: a WHERE-clause fragment,
its positional bind parameters, and the next free parameter index.  The
params array only ever receives tenant_id values, hence List String. -/
structure ScopedFilter where
  clause : String
  params : List String
  nextIdx : Nat
deriving Repr, DecidableEq

/-- The non-admin clause template of src/src/db.ts line 37, with the same
placeholder number interpolated on both sides of the OR. -/
def scopedClause (startIdx : Nat) : String :=
  "tenant_id IN (SELECT t.tenant_id FROM rpt_tenants t WHERE t.tenant_id = $"
    ++ toString startIdx ++ " OR t.parent_tenant_id = $" ++ toString startIdx ++ ")"

/-- tenantFilter from src/src/db.ts lines 29-43: admin gets the tautology
and no parameters; every other role value gets the hierarchy subquery bound
to the single parameter tenant_id. -/
def tenantFilter (tenant : TenantInfo) (startIdx : Nat := 1) : ScopedFilter :=
  if tenant.role = "admin" then
    { clause := "1=1", params := [], nextIdx := startIdx }
  else
    { clause := scopedClause startIdx
      params := [tenant.tenant_id]
      nextIdx := startIdx + 1 }

/-- One row of the rpt_tenants hierarchy table (tenant_id, parent_tenant_id). -/
structure TenantRow where
  tenant_id : String
  parent_tenant_id : Option String := none
deriving Repr, DecidableEq

/-- Denotation of the SQL clause produced by tenantFilter for non-admin
roles, evaluated on a data row whose tenant_id column is row: the row
matches when its tenant_id is in the set selected by
SELECT t.tenant_id FROM rpt_tenants t WHERE t.tenant_id = $k OR
t.parent_tenant_id = $k, with $k bound to p. -/
def tenantClauseDenote (hier : List TenantRow) (p : String) (row : String) : Bool :=
  hier.any (fun t => row == t.tenant_id && (t.tenant_id == p || t.parent_tenant_id == some p))

/-- Fixture hierarchy: T1 is the parent of T2; T3 is an unrelated sibling. -/
def hier1 : List TenantRow :=
  [{ tenant_id := "T1" }, { tenant_id := "T2", parent_tenant_id := some "T1" },
   { tenant_id := "T3" }]

/-- Concrete tenant identity used to instantiate hypotheses. -/
def tT1 : TenantInfo :=
  { tenant_id := "T1", tenant_name := "Tenant 1", role := "tenant" }

example : tenantFilter tT1 1 =
    { clause := scopedClause 1, params := ["T1"], nextIdx := 2 } := by decide

example : (["T1", "T2", "T3"].filter (tenantClauseDenote hier1 "T1")) = ["T1", "T2"] := by
  decide

/-- JavaScript truthiness of a nullable string: false for null/undefined and
for the empty string. -/
def tsTruthy : Option String → Bool
  | none => false
  | some s => s ≠ ""

/-- JWT payload shape from src/utils/jwt.ts (JWTPayload). -/
structure JWTPayload where
  sub : String
  email : String
  role : String
  tenant_id : String
  tenant_name : String
  customer_name : Option String := none
  jti : String
  iat : Nat := 0
  exp : Nat := 0
deriving Repr, DecidableEq

/-- The record stored in TENANT_KV under a token:clientId key: a TenantInfo
without auth_method (Omit in src/src/index.ts line 158). -/
structure TenantKvRecord where
  tenant_id : String
  tenant_name : String
  role : String
  customer_id : Option String := none
  customer_name : Option String := none
  user_id : Option String := none
  user_email : Option String := none
deriving Repr, DecidableEq

/-- The request headers consulted by authenticateTenant; none models an
absent header. -/
structure RequestHeaders where
  authorization : Option String := none
  cfAccessClientId : Option String := none
  xTenantId : Option String := none
deriving Repr, DecidableEq

/-- External collaborators of the resolver, passed as functions.
verifyJWT models src/utils/jwt.ts verifyJWT: it returns the payload exactly
when signature verification succeeds and the expiry has not passed, and
none on every failure (its body is wrapped in try/catch).  hashTokenId
models src/utils/crypto hashTokenId (a pure hash to a hex string).  The two
kv functions model TENANT_KV.get; a Session Store exception surfaces as
Except.error, an absent key as Except.ok none. -/
structure AuthEnv where
  verifyJWT : String → Option JWTPayload
  hashTokenId : String → String
  kvGetSession : String → Except String (Option String)
  kvGetToken : String → Except String (Option TenantKvRecord)

/-- authenticateJWT from src/src/index.ts lines 187-208: verify the token,
then require a session marker under session:hash(jti) in KV; the source
tests the marker with JS truthiness (if (!sessionValid) return null), so an
absent or empty marker (revoked or never created) yields no identity.  The
KV read is not wrapped in try/catch in the source, so a KV error
propagates. -/
def authenticateJWT (token : String) (env : AuthEnv) : Except String (Option TenantInfo) :=
  match env.verifyJWT token with
  | none => Except.ok none
  | some payload =>
    match env.kvGetSession ("session:" ++ env.hashTokenId payload.jti) with
    | Except.error e => Except.error e
    | Except.ok sessionValid =>
      if tsTruthy sessionValid then
        Except.ok (some
          { tenant_id := payload.tenant_id
            tenant_name := payload.tenant_name
            role := payload.role
            customer_name := payload.customer_name
            user_id := some payload.sub
            user_email := some payload.email
            auth_method := "jwt" })
      else Except.ok none

deriving instance DecidableEq for Except

/-- JavaScript String.startsWith, computed on the character sequence. -/
def jsStartsWith (s p : String) : Bool :=
  s.data.take p.data.length == p.data

/-- JavaScript String.slice(n): the string without its first n characters. -/
def jsSlice (s : String) (n : Nat) : String :=
  String.mk (s.data.drop n)

/-- The bearer-token extraction of src/src/index.ts lines 149-153:
authHeader?.startsWith(Bearer ) and slice(7). -/
def bearerToken (req : RequestHeaders) : Option String :=
  match req.authorization with
  | some ah => if jsStartsWith ah "Bearer " then some (jsSlice ah 7) else none
  | none => none

/-- Development fallback path of authenticateTenant (src/src/index.ts lines
169-181): a truthy X-Tenant-Id header yields a minimal tenant identity,
otherwise no identity. -/
def devFallback (req : RequestHeaders) : Except String (Option TenantInfo) :=
  if tsTruthy req.xTenantId then
    Except.ok (some
      { tenant_id := req.xTenantId.getD ""
        tenant_name := req.xTenantId.getD ""
        role := "tenant"
        auth_method := "service_token" })
  else Except.ok none

/-- authenticateTenant from src/src/index.ts lines 144-182: Bearer JWT
first, then CF-Access-Client-Id KV lookup (unknown id yields no identity
without falling through), then the development header.  The KV read is not
wrapped in try/catch, so a KV error propagates. -/
def authenticateTenant (req : RequestHeaders) (env : AuthEnv) :
    Except String (Option TenantInfo) :=
  match bearerToken req with
  | some token => authenticateJWT token env
  | none =>
    if tsTruthy req.cfAccessClientId then
      match env.kvGetToken ("token:" ++ req.cfAccessClientId.getD "") with
      | Except.error e => Except.error e
      | Except.ok (some info) =>
        Except.ok (some
          { tenant_id := info.tenant_id
            tenant_name := info.tenant_name
            role := info.role
            customer_id := info.customer_id
            customer_name := info.customer_name
            user_id := info.user_id
            user_email := info.user_email
            auth_method := "service_token" })
      | Except.ok none => Except.ok none
    else devFallback req

/-- A single-quote character as a string, used by the SET LOCAL templates. -/
def sglq : String := String.singleton (Char.ofNat 39)

/-- The statement text of src/src/db.ts line 58: the tenant value is
interpolated into the SQL text between single quotes. -/
def setTenantStmt (v : String) : String :=
  "SET LOCAL app.current_tenant = " ++ sglq ++ v ++ sglq

/-- The statement text of src/src/db.ts line 61: the customer name is
interpolated into the SQL text between single quotes. -/
def setCustomerStmt (v : String) : String :=
  "SET LOCAL app.current_customer = " ++ sglq ++ v ++ sglq

/-- The session-local configuration statements issued by withTenantContext
(src/src/db.ts lines 56-62) before the callback runs: app.current_tenant is
the wildcard for admin and the literal tenant_id otherwise; the customer
marker is issued only when role is customer and customer_name is truthy. -/
def contextStatements (tenant : TenantInfo) : List String :=
  let tenantValue := if tenant.role = "admin" then "*" else tenant.tenant_id
  let base := [setTenantStmt tenantValue]
  if tenant.role = "customer" ∧ tsTruthy tenant.customer_name then
    base ++ [setCustomerStmt (tenant.customer_name.getD "")]
  else base

/-- A body running inside a transaction: it receives the list of statements
already issued in the transaction and returns the extended list together
with a normal result or a raised failure. -/
def TxAction (ε α : Type) : Type := List String → List String × Except ε α

/-- Modelled from the spec: the postgres library sql.begin used at
src/src/db.ts line 55 (library code, not in src/) — opens a transaction,
runs the body, commits on normal return so the statements issued inside
persist to the database log, and on failure rolls back (none of the body
statements persist) and propagates the failure. -/
def sqlBegin {ε α : Type} (body : TxAction ε α) (db : List String) :
    List String × Except ε α :=
  match body [] with
  | (stmts, Except.ok a) => (db ++ stmts, Except.ok a)
  | (_, Except.error e) => (db, Except.error e)

/-- withTenantContext from src/src/db.ts lines 50-66: inside one
transaction, issue the session-local context statements, then run the
callback. -/
def withTenantContext {ε α : Type} (tenant : TenantInfo) (callback : TxAction ε α)
    (db : List String) : List String × Except ε α :=
  sqlBegin (fun log0 => callback (log0 ++ contextStatements tenant)) db

example : contextStatements tT1 = [setTenantStmt "T1"] := by decide

/-- The scoped clause is never the tautology clause. -/
theorem scopedClause_ne_tautology (n : Nat) : scopedClause n ≠ "1=1" := by
  intro h
  have h2 := congrArg String.length h
  simp [scopedClause, String.length_append] at h2
  have e2 : (" OR t.parent_tenant_id = $" : String).length = 26 := by decide
  have e3 : (")" : String).length = 1 := by decide
  have e4 : ("1=1" : String).length = 3 := by decide
  omega

/-- A concrete customer identity with a non-empty customer scope. -/
def tCust : TenantInfo :=
  { tenant_id := "T2", tenant_name := "Tenant 2", role := "customer",
    customer_name := some "Acme", auth_method := "jwt" }

/-- C4: for every identity with the admin (platform-admin) role and every
start parameter index N, tenantFilter returns the unconditionally-true
clause 1=1, an empty parameter list, and nextIdx = N unchanged, regardless
of the identity's tenant_id value. -/
theorem tenantFilter_admin_tautology (t : TenantInfo) (n : Nat) (h : t.role = "admin") :
    tenantFilter t n = { clause := "1=1", params := [], nextIdx := n } := by
  simp [tenantFilter, h]

/-- Witness for C4 at a concrete admin identity and start index 5. -/
theorem tenantFilter_admin_tautology_witness :
    tenantFilter { tenant_id := "T9", tenant_name := "Root", role := "admin" } 5 =
      { clause := "1=1", params := [], nextIdx := 5 } :=
  tenantFilter_admin_tautology _ 5 rfl

/-- C3: the clause returned by tenantFilter is fully determined by the
role class (admin or not) and the start index — it never contains the
tenant_id or any other caller-supplied field as a literal; the tenant_id
flows only through the params list; and two identities of the same role
class yield byte-identical clauses at the same start index. -/
theorem tenantFilter_clause_parametric (t : TenantInfo) (n : Nat) :
    (tenantFilter t n).clause = (if t.role = "admin" then "1=1" else scopedClause n)
  ∧ (tenantFilter t n).params = (if t.role = "admin" then [] else [t.tenant_id])
  ∧ (∀ t2 : TenantInfo, ((t.role = "admin") ↔ (t2.role = "admin")) →
      (tenantFilter t n).clause = (tenantFilter t2 n).clause) := by
  refine ⟨?_, ?_, ?_⟩
  · by_cases h : t.role = "admin" <;> simp [tenantFilter, h]
  · by_cases h : t.role = "admin" <;> simp [tenantFilter, h]
  · intro t2 hiff
    by_cases h : t.role = "admin"
    · simp [tenantFilter, h, hiff.mp h]
    · have h2 : ¬ t2.role = "admin" := fun hh => h (hiff.mpr hh)
      simp [tenantFilter, h, h2]

/-- Witness for C3: a tenant and a customer identity with different
tenant_id values produce the same clause at start index 3. -/
theorem tenantFilter_clause_parametric_witness :
    (tenantFilter tT1 3).clause = (if tT1.role = "admin" then "1=1" else scopedClause 3)
  ∧ (tenantFilter tT1 3).clause = (tenantFilter tCust 3).clause :=
  ⟨(tenantFilter_clause_parametric tT1 3).1,
   (tenantFilter_clause_parametric tT1 3).2.2 tCust (by decide)⟩

/-- A role value outside the closed enumeration, as can reach the builder
through an unchecked JSON cast of a KV record or JWT payload. -/
def tBadRole : TenantInfo :=
  { tenant_id := "X1", tenant_name := "Mystery", role := "superuser" }

/-- C2 counterexample: tenantFilter does not fail loudly on a role value
outside the closed enumeration — with role superuser it silently returns
the tenant-scoped predicate (clause, one bound parameter, advanced index)
instead of aborting. -/
theorem tenantFilter_unknown_role_returns_predicate :
    tenantFilter tBadRole 1 =
      { clause := scopedClause 1, params := ["X1"], nextIdx := 2 } := by decide

/-- C2 amended: an unrecognized role value is not rejected at runtime;
tenantFilter treats every role other than admin as tenant/customer and
returns the tenant-scoped predicate bound to the identity's tenant_id — it
never defaults to the unscoped tautology predicate.  (The closed role
enumeration is enforced only by the TypeScript type system at compile
time; no runtime fatal check exists.) -/
theorem tenantFilter_nonadmin_always_scoped (t : TenantInfo) (n : Nat)
    (h : t.role ≠ "admin") :
    tenantFilter t n = { clause := scopedClause n, params := [t.tenant_id], nextIdx := n + 1 }
  ∧ (tenantFilter t n).clause ≠ "1=1" := by
  refine ⟨by simp [tenantFilter, h], ?_⟩
  simp [tenantFilter, h]
  exact scopedClause_ne_tautology n

/-- Witness for the amended C2 at the concrete unknown-role identity. -/
theorem tenantFilter_nonadmin_always_scoped_witness :
    (tenantFilter tBadRole 1 =
        { clause := scopedClause 1, params := ["X1"], nextIdx := 2 })
  ∧ (tenantFilter tBadRole 1).clause ≠ "1=1" :=
  tenantFilter_nonadmin_always_scoped tBadRole 1 (by decide)

/-- C1: for every identity with role tenant or customer and tenant_id T,
and every start index N, tenantFilter returns the hierarchy-subquery
clause with the single placeholder number N used on both sides of the OR,
exactly one bound parameter equal to T, and nextIdx = N + 1; the clause
matches exactly the rows whose tenant_id equals T or whose tenant row has
parent_tenant_id = T (direct children only); and on the fixture hierarchy
with T1 the parent of T2 and sibling T3, exactly the rows T1 and T2 match
for tenant_id T1. -/
theorem tenantFilter_tenant_scope_correct (t : TenantInfo) (n : Nat)
    (hrole : t.role = "tenant" ∨ t.role = "customer") :
    tenantFilter t n = { clause := scopedClause n, params := [t.tenant_id], nextIdx := n + 1 }
  ∧ (∀ (hier : List TenantRow) (row : String),
      (∃ tr ∈ hier, tr.tenant_id = row) →
      (tenantClauseDenote hier t.tenant_id row = true ↔
        row = t.tenant_id ∨
          ∃ tr ∈ hier, tr.tenant_id = row ∧ tr.parent_tenant_id = some t.tenant_id))
  ∧ (t.tenant_id = "T1" →
      ["T1", "T2", "T3"].filter (tenantClauseDenote hier1 t.tenant_id) = ["T1", "T2"]) := by
  have hne : t.role ≠ "admin" := by rcases hrole with h | h <;> simp [h]
  refine ⟨by simp [tenantFilter, hne], ?_, ?_⟩
  · rintro hier row ⟨tr0, htr0, htid0⟩
    unfold tenantClauseDenote
    rw [List.any_eq_true]
    constructor
    · rintro ⟨tr, htr, hcond⟩
      simp only [Bool.and_eq_true, Bool.or_eq_true, beq_iff_eq] at hcond
      obtain ⟨hrow, hor⟩ := hcond
      rcases hor with h1 | h2
      · exact Or.inl (hrow.trans h1)
      · exact Or.inr ⟨tr, htr, hrow.symm, h2⟩
    · rintro (hrow | ⟨tr, htr, hid, hpar⟩)
      · exact ⟨tr0, htr0, by simp [htid0, hrow]⟩
      · exact ⟨tr, htr, by simp [hid, hpar]⟩
  · intro h
    rw [h]
    decide

/-- Witness for C1 at the concrete tenant identity T1 and the fixture
hierarchy. -/
theorem tenantFilter_tenant_scope_correct_witness :
    tenantFilter tT1 1 = { clause := scopedClause 1, params := ["T1"], nextIdx := 2 }
  ∧ ["T1", "T2", "T3"].filter (tenantClauseDenote hier1 tT1.tenant_id) = ["T1", "T2"] :=
  ⟨(tenantFilter_tenant_scope_correct tT1 1 (Or.inl rfl)).1,
   (tenantFilter_tenant_scope_correct tT1 1 (Or.inl rfl)).2.2 rfl⟩

/-- C5: for every request carrying a bearer session token that verifies
(signature valid, not expired), if the Session Store holds no marker for
the token's unique ID, credential resolution returns no identity: marker
deletion revokes the session even while the token itself is still
cryptographically valid. -/
theorem authenticateTenant_revoked_session_none (req : RequestHeaders) (env : AuthEnv)
    (token : String) (payload : JWTPayload)
    (hb : bearerToken req = some token)
    (hv : env.verifyJWT token = some payload)
    (hkv : env.kvGetSession ("session:" ++ env.hashTokenId payload.jti) = Except.ok none) :
    authenticateTenant req env = Except.ok none := by
  simp [authenticateTenant, authenticateJWT, hb, hv, hkv, tsTruthy]

/-- A valid JWT payload for a plain tenant user. -/
def payloadT1 : JWTPayload :=
  { sub := "u1", email := "u1@example.com", role := "tenant", tenant_id := "T1",
    tenant_name := "Tenant 1", jti := "jti-1" }

/-- Resolver collaborators where the signature verifies but the Session
Store holds no marker for any session. -/
def envRevoked : AuthEnv :=
  { verifyJWT := fun _ => some payloadT1
    hashTokenId := fun s => s
    kvGetSession := fun _ => Except.ok none
    kvGetToken := fun _ => Except.ok none }

/-- Witness for C5: a concretely revoked session resolves to no identity. -/
theorem authenticateTenant_revoked_session_none_witness :
    authenticateTenant { authorization := some "Bearer tok1" } envRevoked =
      Except.ok none :=
  authenticateTenant_revoked_session_none _ envRevoked "tok1" payloadT1 (by decide) rfl rfl

/-- A JWT payload whose role is customer but whose customer scope is absent. -/
def payloadCustNoScope : JWTPayload :=
  { sub := "u2", email := "u2@example.com", role := "customer", tenant_id := "T2",
    tenant_name := "Tenant 2", customer_name := none, jti := "jti-2" }

/-- Resolver collaborators where the signature verifies and the session
marker is present. -/
def envLive : AuthEnv :=
  { verifyJWT := fun _ => some payloadCustNoScope
    hashTokenId := fun s => s
    kvGetSession := fun _ => Except.ok (some "1")
    kvGetToken := fun _ => Except.ok none }

/-- The identity the resolver produces for payloadCustNoScope. -/
def custNoScopeInfo : TenantInfo :=
  { tenant_id := "T2", tenant_name := "Tenant 2", role := "customer",
    customer_name := none, user_id := some "u2",
    user_email := some "u2@example.com", auth_method := "jwt" }

/-- C6 counterexample: the resolver emits an identity with role customer
and an absent customer scope — nothing in authenticateJWT enforces that a
customer identity carries a non-empty customer_name. -/
theorem authenticateJWT_customer_scope_not_enforced :
    authenticateJWT "tok2" envLive = Except.ok (some custNoScopeInfo) ∧
      custNoScopeInfo.role = "customer" ∧ custNoScopeInfo.customer_name = none := by
  refine ⟨rfl, rfl, rfl⟩

/-- C6 amended: the resolver copies role and customer scope verbatim from
the verified token payload and does not itself enforce non-emptiness of a
customer identity's scope; the invariant holds only when token issuance
guarantees it. -/
theorem authenticateJWT_preserves_payload_scope (token : String) (env : AuthEnv)
    (payload : JWTPayload) (info : TenantInfo)
    (hv : env.verifyJWT token = some payload)
    (hok : authenticateJWT token env = Except.ok (some info)) :
    info.role = payload.role ∧ info.customer_name = payload.customer_name := by
  rcases hkv : env.kvGetSession ("session:" ++ env.hashTokenId payload.jti) with e | v
  · simp [authenticateJWT, hv, hkv] at hok
  · simp only [authenticateJWT, hv, hkv] at hok
    split at hok
    · simp only [Except.ok.injEq, Option.some.injEq] at hok
      subst hok
      exact ⟨rfl, rfl⟩
    · simp at hok

/-- Witness for the amended C6 at the concrete customer payload. -/
theorem authenticateJWT_preserves_payload_scope_witness :
    custNoScopeInfo.role = payloadCustNoScope.role ∧
      custNoScopeInfo.customer_name = payloadCustNoScope.customer_name :=
  authenticateJWT_preserves_payload_scope "tok2" envLive payloadCustNoScope
    custNoScopeInfo rfl rfl

/-- Resolver collaborators where every Session Store read raises. -/
def envKvDown : AuthEnv :=
  { verifyJWT := fun _ => some payloadT1
    hashTokenId := fun s => s
    kvGetSession := fun _ => Except.error "kv unavailable"
    kvGetToken := fun _ => Except.error "kv unavailable" }

/-- C7 counterexample: with the Session Store unavailable (its read
raises), authenticateTenant propagates the raised error to the caller
instead of returning no identity — resolution is not exception-free. -/
theorem authenticateTenant_kv_error_propagates :
    authenticateTenant { authorization := some "Bearer tok1" } envKvDown =
      Except.error "kv unavailable" := by decide

/-- The identity authenticateJWT constructs from a verified payload
(src/src/index.ts lines 199-207). -/
def jwtIdentity (payload : JWTPayload) : TenantInfo :=
  { tenant_id := payload.tenant_id
    tenant_name := payload.tenant_name
    role := payload.role
    customer_name := payload.customer_name
    user_id := some payload.sub
    user_email := some payload.email
    auth_method := "jwt" }

/-- The identity authenticateTenant constructs from a KV service-token
record (src/src/index.ts line 163). -/
def serviceIdentity (r : TenantKvRecord) : TenantInfo :=
  { tenant_id := r.tenant_id
    tenant_name := r.tenant_name
    role := r.role
    customer_id := r.customer_id
    customer_name := r.customer_name
    user_id := r.user_id
    user_email := r.user_email
    auth_method := "service_token" }

/-- The identity the development fallback constructs
(src/src/index.ts lines 173-178). -/
def devIdentity (req : RequestHeaders) : TenantInfo :=
  { tenant_id := req.xTenantId.getD ""
    tenant_name := req.xTenantId.getD ""
    role := "tenant"
    auth_method := "service_token" }

/-- C7 amended: authenticateTenant returns no identity on every detected
resolution failure — invalid/expired token, missing/revoked session
marker, unknown service token — and never a default identity: every
identity it returns originates from the verified token payload, the KV
service-token record, or the development header; and it never throws as
long as the Session Store reads themselves return.  (A Session Store
exception, by contrast, propagates to the caller.) -/
theorem authenticateTenant_no_throw_no_default (req : RequestHeaders) (env : AuthEnv) :
    (∀ token, bearerToken req = some token → env.verifyJWT token = none →
        authenticateTenant req env = Except.ok none)
  ∧ (∀ token payload, bearerToken req = some token →
        env.verifyJWT token = some payload →
        env.kvGetSession ("session:" ++ env.hashTokenId payload.jti) = Except.ok none →
        authenticateTenant req env = Except.ok none)
  ∧ (bearerToken req = none → tsTruthy req.cfAccessClientId = true →
        env.kvGetToken ("token:" ++ req.cfAccessClientId.getD "") = Except.ok none →
        authenticateTenant req env = Except.ok none)
  ∧ (∀ info, authenticateTenant req env = Except.ok (some info) →
        (∃ token payload v, bearerToken req = some token ∧
            env.verifyJWT token = some payload ∧
            env.kvGetSession ("session:" ++ env.hashTokenId payload.jti) = Except.ok v ∧
            tsTruthy v = true ∧ info = jwtIdentity payload)
      ∨ (∃ r, bearerToken req = none ∧ tsTruthy req.cfAccessClientId = true ∧
            env.kvGetToken ("token:" ++ req.cfAccessClientId.getD "") = Except.ok (some r) ∧
            info = serviceIdentity r)
      ∨ (bearerToken req = none ∧ tsTruthy req.cfAccessClientId = false ∧
            tsTruthy req.xTenantId = true ∧ info = devIdentity req))
  ∧ ((∀ k, ∃ v, env.kvGetSession k = Except.ok v) →
     (∀ k, ∃ v, env.kvGetToken k = Except.ok v) →
        ∃ res, authenticateTenant req env = Except.ok res) := by
  refine ⟨?_, ?_, ?_, ?_, ?_⟩
  · intro token hb hv
    simp [authenticateTenant, authenticateJWT, hb, hv]
  · intro token payload hb hv hkv
    simp [authenticateTenant, authenticateJWT, hb, hv, hkv, tsTruthy]
  · intro hb hc hkv
    simp [authenticateTenant, hb, hc, hkv]
  · intro info hok
    cases hb : bearerToken req with
    | some token =>
      cases hv : env.verifyJWT token with
      | none => simp [authenticateTenant, authenticateJWT, hb, hv] at hok
      | some payload =>
        rcases hkv : env.kvGetSession ("session:" ++ env.hashTokenId payload.jti) with e | v
        · simp [authenticateTenant, authenticateJWT, hb, hv, hkv] at hok
        · by_cases hts : tsTruthy v = true
          · left
            refine ⟨token, payload, v, rfl, hv, hkv, hts, ?_⟩
            simp only [authenticateTenant, authenticateJWT, hb, hv, hkv] at hok
            rw [if_pos hts] at hok
            simp only [Except.ok.injEq, Option.some.injEq] at hok
            exact hok.symm
          · simp [authenticateTenant, authenticateJWT, hb, hv, hkv, hts] at hok
    | none =>
      by_cases hc : tsTruthy req.cfAccessClientId = true
      · rcases hkv : env.kvGetToken ("token:" ++ req.cfAccessClientId.getD "") with e | v
        · simp [authenticateTenant, hb, hc, hkv] at hok
        · rcases v with _ | r
          · simp [authenticateTenant, hb, hc, hkv] at hok
          · right; left
            refine ⟨r, rfl, hc, rfl, ?_⟩
            simp only [authenticateTenant, hb, hkv] at hok
            rw [if_pos hc] at hok
            simp only [Except.ok.injEq, Option.some.injEq] at hok
            exact hok.symm
      · by_cases hx : tsTruthy req.xTenantId = true
        · right; right
          refine ⟨rfl, by simpa using hc, hx, ?_⟩
          simp only [authenticateTenant, devFallback, hb] at hok
          rw [if_neg hc, if_pos hx] at hok
          simp only [Except.ok.injEq, Option.some.injEq] at hok
          exact hok.symm
        · simp [authenticateTenant, devFallback, hb, hc, hx] at hok
  · intro hs ht
    cases hb : bearerToken req with
    | some token =>
      cases hv : env.verifyJWT token with
      | none => exact ⟨none, by simp [authenticateTenant, authenticateJWT, hb, hv]⟩
      | some payload =>
        obtain ⟨v, hkv⟩ := hs ("session:" ++ env.hashTokenId payload.jti)
        by_cases hts : tsTruthy v = true
        · exact ⟨some (jwtIdentity payload),
            by simp [authenticateTenant, authenticateJWT, jwtIdentity, hb, hv, hkv, hts]⟩
        · exact ⟨none, by simp [authenticateTenant, authenticateJWT, hb, hv, hkv, hts]⟩
    | none =>
      by_cases hc : tsTruthy req.cfAccessClientId = true
      · obtain ⟨v, hkv⟩ := ht ("token:" ++ req.cfAccessClientId.getD "")
        cases v with
        | none => exact ⟨none, by simp [authenticateTenant, hb, hc, hkv]⟩
        | some r =>
          exact ⟨some (serviceIdentity r),
            by simp [authenticateTenant, serviceIdentity, hb, hc, hkv]⟩
      · by_cases hx : tsTruthy req.xTenantId = true
        · exact ⟨some (devIdentity req),
            by simp [authenticateTenant, devFallback, devIdentity, hb, hc, hx]⟩
        · exact ⟨none, by simp [authenticateTenant, devFallback, hb, hc, hx]⟩

/-- Resolver collaborators where every Session Store read returns. -/
def envAllOk : AuthEnv :=
  { verifyJWT := fun _ => none
    hashTokenId := fun s => s
    kvGetSession := fun _ => Except.ok none
    kvGetToken := fun _ => Except.ok none }

/-- Witness for the amended C7: an unknown service token resolves to no
identity, and with an available store resolution returns without raising. -/
theorem authenticateTenant_no_throw_no_default_witness :
    authenticateTenant { cfAccessClientId := some "cid-1" } envAllOk = Except.ok none
  ∧ ∃ res, authenticateTenant { authorization := some "Bearer tok1" } envAllOk =
      Except.ok res :=
  ⟨(authenticateTenant_no_throw_no_default { cfAccessClientId := some "cid-1" }
      envAllOk).2.2.1 rfl (by decide) rfl,
   (authenticateTenant_no_throw_no_default { authorization := some "Bearer tok1" }
      envAllOk).2.2.2.2 (fun _ => ⟨none, rfl⟩) (fun _ => ⟨none, rfl⟩)⟩

/-- The first statement issued inside the transaction is always the
app.current_tenant assignment with the effective tenant value. -/
theorem contextStatements_head (t : TenantInfo) :
    (contextStatements t).head? =
      some (setTenantStmt (if t.role = "admin" then "*" else t.tenant_id)) := by
  unfold contextStatements
  split <;> split <;> simp

/-- The tenant statement template is injective in the interpolated value. -/
theorem setTenantStmt_inj {v1 v2 : String} (h : setTenantStmt v1 = setTenantStmt v2) :
    v1 = v2 := by
  have hd := congrArg String.data h
  simp only [setTenantStmt, String.data_append] at hd
  exact String.ext (List.append_cancel_left (List.append_cancel_right hd))

/-- A customer identity with an absent customer scope. -/
def tCustNoScope : TenantInfo :=
  { tenant_id := "T5", tenant_name := "Tenant 5", role := "customer",
    customer_name := none, auth_method := "jwt" }

/-- C8 counterexample: for a customer identity whose customer scope is
absent, withTenantContext issues no session-local customer marker — the
body observes only the tenant statement. -/
theorem withTenantContext_customer_without_scope :
    withTenantContext tCustNoScope
        (fun l => (l, (Except.ok l : Except String (List String)))) [] =
      ([setTenantStmt "T5"], Except.ok [setTenantStmt "T5"]) := by decide

/-- C8 amended: inside the transaction the body runs after exactly the
context statements; app.current_tenant is set to the wildcard sentinel for
admin — never the literal tenant_id — and to the identity's tenant_id for
every other role; the customer marker is additionally set for every
customer identity whose customer scope is present and non-empty. -/
theorem withTenantContext_context_values (db : List String) (t : TenantInfo) :
    withTenantContext t (fun l => (l, (Except.ok l : Except String (List String)))) db =
      (db ++ contextStatements t, Except.ok (contextStatements t))
  ∧ (contextStatements t).head? =
      some (setTenantStmt (if t.role = "admin" then "*" else t.tenant_id))
  ∧ (∀ c, t.role = "customer" → t.customer_name = some c → c ≠ "" →
      contextStatements t = [setTenantStmt t.tenant_id, setCustomerStmt c]) := by
  refine ⟨by simp [withTenantContext, sqlBegin], contextStatements_head t, ?_⟩
  intro c h1 h2 h3
  simp [contextStatements, h1, h2, tsTruthy, h3]

/-- Witness for the amended C8 at a customer identity with scope Acme. -/
theorem withTenantContext_context_values_witness :
    withTenantContext tCust (fun l => (l, (Except.ok l : Except String (List String)))) [] =
      ([] ++ contextStatements tCust, Except.ok (contextStatements tCust))
  ∧ contextStatements tCust = [setTenantStmt "T2", setCustomerStmt "Acme"] :=
  ⟨(withTenantContext_context_values [] tCust).1,
   (withTenantContext_context_values [] tCust).2.2 "Acme" rfl rfl (by decide)⟩

/-- C9: withTenantContext runs the body in one transaction: when the body
returns normally the transaction commits — the issued statements persist —
and the body's result is returned; when the body raises, the transaction
rolls back, no statement issued by the body persists (the database log is
unchanged), and the failure is propagated unchanged. -/
theorem withTenantContext_commit_rollback {ε α : Type} (t : TenantInfo)
    (cb : TxAction ε α) (db : List String) :
    (∀ stmts a, cb (contextStatements t) = (stmts, Except.ok a) →
        withTenantContext t cb db = (db ++ stmts, Except.ok a))
  ∧ (∀ stmts e, cb (contextStatements t) = (stmts, Except.error e) →
        withTenantContext t cb db = (db, Except.error e)) := by
  constructor
  · intro stmts a h
    simp [withTenantContext, sqlBegin, h]
  · intro stmts e h
    simp [withTenantContext, sqlBegin, h]

/-- A body that issues one write and returns normally. -/
def cbWrite : TxAction String Nat :=
  fun l => (l ++ ["INSERT 1"], Except.ok 42)

/-- A body that issues one write and then raises. -/
def cbFail : TxAction String Nat :=
  fun l => (l ++ ["INSERT 1"], Except.error "boom")

/-- Witness for C9: a normal body commits its write; a raising body leaves
the database log unchanged and its failure is propagated. -/
theorem withTenantContext_commit_rollback_witness :
    withTenantContext tT1 cbWrite ["prior"] =
      (["prior"] ++ (contextStatements tT1 ++ ["INSERT 1"]), Except.ok 42)
  ∧ withTenantContext tT1 cbFail ["prior"] = (["prior"], Except.error "boom") :=
  ⟨(withTenantContext_commit_rollback tT1 cbWrite ["prior"]).1 _ 42 rfl,
   (withTenantContext_commit_rollback tT1 cbFail ["prior"]).2 _ "boom" rfl⟩

/-- C10: the SET LOCAL statements embed the identity's values directly in
the statement text as quoted literals: for every non-admin identity the
app.current_tenant statement is the fixed template with tenant_id verbatim
between single quotes; for a customer with a present non-empty scope the
app.current_customer statement likewise embeds customer_name verbatim; and
the statement text varies with the identity's tenant_id. -/
theorem setLocal_statements_literal (t : TenantInfo) (h : t.role ≠ "admin") :
    (contextStatements t).head? =
      some ("SET LOCAL app.current_tenant = " ++ sglq ++ t.tenant_id ++ sglq)
  ∧ (∀ c, t.role = "customer" → t.customer_name = some c → c ≠ "" →
      ("SET LOCAL app.current_customer = " ++ sglq ++ c ++ sglq) ∈ contextStatements t)
  ∧ (∀ t2 : TenantInfo, t2.role ≠ "admin" → t.tenant_id ≠ t2.tenant_id →
      (contextStatements t).head? ≠ (contextStatements t2).head?) := by
  refine ⟨?_, ?_, ?_⟩
  · rw [contextStatements_head t, if_neg h]
    rfl
  · intro c h1 h2 h3
    simp [contextStatements, h1, h2, tsTruthy, h3, setCustomerStmt]
  · intro t2 h2 hne heq
    rw [contextStatements_head t, contextStatements_head t2, if_neg h, if_neg h2] at heq
    exact hne (setTenantStmt_inj (Option.some.injEq _ _ ▸ heq))

/-- Witness for C10 at the customer identity T2/Acme against tenant T1. -/
theorem setLocal_statements_literal_witness :
    (contextStatements tCust).head? =
      some ("SET LOCAL app.current_tenant = " ++ sglq ++ "T2" ++ sglq)
  ∧ ("SET LOCAL app.current_customer = " ++ sglq ++ "Acme" ++ sglq) ∈ contextStatements tCust
  ∧ (contextStatements tCust).head? ≠ (contextStatements tT1).head? :=
  ⟨(setLocal_statements_literal tCust (by decide)).1,
   (setLocal_statements_literal tCust (by decide)).2.1 "Acme" rfl rfl (by decide),
   (setLocal_statements_literal tCust (by decide)).2.2 tT1 (by decide) (by decide)⟩
